import Mathlib

/-!
Shallow embedding of the PIV access-resolution engine of `ykman/cli/piv.py`
(yubikey-manager CLI). The device (`PivSession` plus the `pivman` helpers it
calls) and the interactive prompts are modelled as oracles; each CLI routine
is translated as a pure function returning its result (`Except Failure α`,
where `Failure.usageError msg` models `ctx.fail(msg)` and `Failure.exc` /
`Failure.apduError` model an exception propagating unwrapped) together with
the ordered list of device/prompt interactions it performed.
-/

/-- Byte strings are modelled as lists of naturals (one per byte). -/
abbrev Bytes := List Nat

/-- Exceptions raised by the device session layer: `invalidPin` models
`InvalidPinError` (carrying `attempts_remaining`); `deviceErr` models any
other exception raised by a session call (APDU error, touch timeout, ...). -/
inductive DevExc where
  | invalidPin (attemptsRemaining : Nat)
  | deviceErr (code : Nat)
deriving DecidableEq, Repr

/-- How a CLI routine fails: `usageError msg` is `ctx.fail(msg)` (a click
`UsageError` shown to the user); `exc e` is a device exception propagating
unwrapped out of the routine; `apduError sw` is an `ApduError` re-raised by
the `piv` group callback. -/
inductive Failure where
  | usageError (msg : String)
  | exc (e : DevExc)
  | apduError (sw : Nat)
deriving DecidableEq, Repr

/-- Observable interactions: commands submitted to the device and prompts
shown to the user, in order. -/
inductive Event where
  | readPivmanData
  | verifyPin (pin : String)
  | authenticate (key : Bytes)
  | getProtectedData
  | changePin (old new : String)
  | changePuk (old new : String)
  | promptPin
  | promptNewPin
  | promptMgmKey
deriving DecidableEq, Repr

/-- The pivman protection metadata record (`get_pivman_data`). -/
structure PivmanData where
  has_derived_key : Bool
  has_stored_key : Bool
  salt : Bytes
deriving DecidableEq, Repr

/-- Modelled from the spec: `has_protected_key = has_derived_key OR
has_stored_key` (the `PivmanData` class lives in `ykman/piv.py`, which is
not among the given source files; the spec states this equation in §3). -/
def PivmanData.has_protected_key (p : PivmanData) : Bool :=
  p.has_derived_key || p.has_stored_key

/-- Device oracle: the response of the token to each session command.
`pivmanData` is `get_pivman_data` (error = `ApduError` with status word
`sw`); `protectedData` is `get_pivman_protected_data(session).key`;
`changePin` is `pivman_change_pin`; `changePuk` is `session.change_puk`. -/
structure Device where
  pivmanData : Except Nat PivmanData
  verifyPin : String → Except DevExc Unit
  authenticate : Bytes → Except DevExc Unit
  protectedData : Except DevExc Bytes
  changePin : String → String → Except DevExc Unit
  changePuk : String → String → Except DevExc Unit

/-- UI oracle: what the user types at each kind of prompt. -/
structure UI where
  pinEntry : String
  newPinEntry : String
  mgmKeyEntry : String

/-- The factory default management key
`010203040506070801020304050607080102030405060708`. -/
def DEFAULT_MANAGEMENT_KEY : Bytes :=
  [1, 2, 3, 4, 5, 6, 7, 8, 1, 2, 3, 4, 5, 6, 7, 8, 1, 2, 3, 4, 5, 6, 7, 8]

/-- `SW.FILE_NOT_FOUND` status word (0x6A82). -/
def SW_FILE_NOT_FOUND : Nat := 0x6A82

/-- Value of one hexadecimal digit. -/
def hexVal (c : Char) : Option Nat :=
  if '0' ≤ c ∧ c ≤ '9' then some (c.toNat - '0'.toNat)
  else if 'a' ≤ c ∧ c ≤ 'f' then some (c.toNat - 'a'.toNat + 10)
  else if 'A' ≤ c ∧ c ≤ 'F' then some (c.toNat - 'A'.toNat + 10)
  else none

/-- Decode pairs of hexadecimal digits into bytes, skipping spaces between
bytes — the behaviour of Python's `bytes.fromhex`. -/
def hexPairs : List Char → Option Bytes
  | [] => some []
  | ' ' :: rest => hexPairs rest
  | c :: d :: rest =>
    match hexVal c, hexVal d, hexPairs rest with
    | some h, some l, some bs => some ((16 * h + l) :: bs)
    | _, _, _ => none
  | _ => none

/-- `bytes.fromhex(s)`; `none` models the `ValueError` it raises. -/
def bytesFromhex (s : String) : Option Bytes :=
  hexPairs s.data

/-- Python falsiness of an optional PIN string (`not pin`). -/
def pinFalsy : Option String → Bool
  | none => true
  | some s => decide (s = "")

/-- Python falsiness of an optional management key (`not management_key`). -/
def keyFalsy : Option Bytes → Bool
  | none => true
  | some k => decide (k = [])

/-- `click_parse_management_key`: hex-decode the value; a non-empty key must
be exactly 24 bytes. Every failure is re-raised as `ValueError(val)`. -/
def click_parse_management_key (val : String) : Except String Bytes :=
  match bytesFromhex val with
  | some key => if key ≠ [] ∧ key.length ≠ 24 then .error val else .ok key
  | none => .error val

/-- `_prompt_management_key`: prompt; blank entry yields the default key;
otherwise hex-decode, failing with "Management key has the wrong format."
(the prompt text itself, customizable via `mgm_key_prompt`, does not affect
behaviour and is not modelled). -/
def prompt_management_key (ui : UI) : (Except Failure Bytes) × List Event :=
  if ui.mgmKeyEntry = "" then (.ok DEFAULT_MANAGEMENT_KEY, [.promptMgmKey])
  else
    match bytesFromhex ui.mgmKeyEntry with
    | some k => (.ok k, [.promptMgmKey])
    | none => (.error (.usageError "Management key has the wrong format."), [.promptMgmKey])

/-- `_prompt_pin`: prompt and return the entered string. -/
def prompt_pin (ui : UI) : String × List Event :=
  (ui.pinEntry, [.promptPin])

/-- `_valid_pin_length`. -/
def valid_pin_length (pin : String) : Bool :=
  6 ≤ pin.length && pin.length ≤ 8

/-- The `try` body of `_verify_pin`: submit the PIN, then on the derived-key
(resp. stored-key) protection mode authenticate with the derived (resp.
fetched stored) management key and re-verify the PIN last. -/
def verify_pin_body (dev : Device) (derive : String → Bytes → Bytes)
    (pivman : PivmanData) (p : String) : (Except DevExc Unit) × List Event :=
  match dev.verifyPin p with
  | .error e => (.error e, [.verifyPin p])
  | .ok _ =>
    if pivman.has_derived_key then
      let k := derive p pivman.salt
      match dev.authenticate k with
      | .error e => (.error e, [.verifyPin p, .authenticate k])
      | .ok _ =>
        match dev.verifyPin p with
        | .error e => (.error e, [.verifyPin p, .authenticate k, .verifyPin p])
        | .ok _ => (.ok (), [.verifyPin p, .authenticate k, .verifyPin p])
    else if pivman.has_stored_key then
      match dev.protectedData with
      | .error e => (.error e, [.verifyPin p, .getProtectedData])
      | .ok key =>
        match dev.authenticate key with
        | .error e => (.error e, [.verifyPin p, .getProtectedData, .authenticate key])
        | .ok _ =>
          match dev.verifyPin p with
          | .error e =>
            (.error e, [.verifyPin p, .getProtectedData, .authenticate key, .verifyPin p])
          | .ok _ =>
            (.ok (), [.verifyPin p, .getProtectedData, .authenticate key, .verifyPin p])
    else (.ok (), [.verifyPin p])

/-- `_verify_pin`: obtain a PIN (prompting unless `no_prompt`, which fails
with "PIN required."), run the body, and classify failures: an
`InvalidPinError` becomes "PIN verification failed, N tries left." when
attempts remain and "PIN is blocked." otherwise; any other exception becomes
"PIN verification failed.". Returns `true` on success. -/
def verify_pin (dev : Device) (ui : UI) (derive : String → Bytes → Bytes)
    (pivman : PivmanData) (pin : Option String) (noPrompt : Bool) :
    (Except Failure Bool) × List Event :=
  let pinStep : (Except Failure String) × List Event :=
    if pinFalsy pin then
      if noPrompt then (.error (.usageError "PIN required."), [])
      else
        let (p, tr) := prompt_pin ui
        (.ok p, tr)
    else (.ok (pin.getD ""), [])
  match pinStep with
  | (.error f, tr) => (.error f, tr)
  | (.ok p, tr0) =>
    match verify_pin_body dev derive pivman p with
    | (.ok _, tr1) => (.ok true, tr0 ++ tr1)
    | (.error (.invalidPin attempts), tr1) =>
      (.error (.usageError (if attempts > 0 then
          "PIN verification failed, " ++ toString attempts ++ " tries left."
        else "PIN is blocked.")), tr0 ++ tr1)
    | (.error (.deviceErr _), tr1) =>
      (.error (.usageError "PIN verification failed."), tr0 ++ tr1)

/-- `_authenticate`: obtain a management key (prompting unless `no_prompt`,
which fails with "Management key required.") and submit it; any failure is
reported as "Authentication with management key failed.". -/
def authenticate (dev : Device) (ui : UI) (managementKey : Option Bytes)
    (noPrompt : Bool) : (Except Failure Unit) × List Event :=
  let keyStep : (Except Failure Bytes) × List Event :=
    if keyFalsy managementKey then
      if noPrompt then (.error (.usageError "Management key required."), [])
      else prompt_management_key ui
    else (.ok (managementKey.getD []), [])
  match keyStep with
  | (.error f, tr) => (.error f, tr)
  | (.ok key, tr0) =>
    match dev.authenticate key with
    | .ok _ => (.ok (), tr0 ++ [.authenticate key])
    | .error _ =>
      (.error (.usageError "Authentication with management key failed."), tr0 ++ [.authenticate key])

/-- `_ensure_authenticated`: the access resolver. Returns whether the PIN
ended up verified. -/
def ensure_authenticated (dev : Device) (ui : UI) (derive : String → Bytes → Bytes)
    (pivman : PivmanData) (pin : Option String) (managementKey : Option Bytes)
    (requirePinAndKey : Bool) (noPrompt : Bool) :
    (Except Failure Bool) × List Event :=
  if pivman.has_protected_key then
    if keyFalsy managementKey then
      verify_pin dev ui derive pivman pin noPrompt
    else
      match authenticate dev ui managementKey noPrompt with
      | (.ok _, tr) => (.ok false, tr)
      | (.error f, tr) => (.error f, tr)
  else
    if requirePinAndKey then
      match verify_pin dev ui derive pivman pin noPrompt with
      | (.error f, tr) => (.error f, tr)
      | (.ok pv, tr0) =>
        match authenticate dev ui managementKey noPrompt with
        | (.ok _, tr1) => (.ok pv, tr0 ++ tr1)
        | (.error f, tr1) => (.error f, tr0 ++ tr1)
    else
      match authenticate dev ui managementKey noPrompt with
      | (.ok _, tr) => (.ok false, tr)
      | (.error f, tr) => (.error f, tr)

/-- The `piv` group callback: open the session and read the pivman data; an
`ApduError` with `SW.FILE_NOT_FOUND` becomes "The PIV application can't be
found on this YubiKey.", any other `ApduError` is re-raised. -/
def piv (dev : Device) : (Except Failure PivmanData) × List Event :=
  match dev.pivmanData with
  | .ok d => (.ok d, [.readPivmanData])
  | .error sw =>
    if sw = SW_FILE_NOT_FOUND then
      (.error (.usageError "The PIV application can't be found on this YubiKey."),
        [.readPivmanData])
    else (.error (.apduError sw), [.readPivmanData])

/-- The `change-pin` command: obtain current and new PIN (prompting when
absent), validate lengths, call `pivman_change_pin` and classify an
`InvalidPinError` ("PIN change failed - N tries left." / "PIN is blocked.");
other exceptions propagate unwrapped. -/
def change_pin (dev : Device) (ui : UI) (pin newPin : Option String) :
    (Except Failure Unit) × List Event :=
  let (p, tr0) :=
    if pinFalsy pin then (ui.pinEntry, [Event.promptPin]) else (pin.getD "", [])
  let (np, tr1) :=
    if pinFalsy newPin then (ui.newPinEntry, [Event.promptNewPin]) else (newPin.getD "", [])
  let tr := tr0 ++ tr1
  if !valid_pin_length p then
    (.error (.usageError "Current PIN must be between 6 and 8 characters long."), tr)
  else if !valid_pin_length np then
    (.error (.usageError "New PIN must be between 6 and 8 characters long."), tr)
  else
    match dev.changePin p np with
    | .ok _ => (.ok (), tr ++ [.changePin p np])
    | .error (.invalidPin attempts) =>
      (.error (.usageError (if attempts ≠ 0 then
          "PIN change failed - " ++ toString attempts ++ " tries left."
        else "PIN is blocked.")), tr ++ [.changePin p np])
    | .error (.deviceErr c) => (.error (.exc (.deviceErr c)), tr ++ [.changePin p np])

/-- The `change-puk` command, analogous to `change-pin`. -/
def change_puk (dev : Device) (ui : UI) (puk newPuk : Option String) :
    (Except Failure Unit) × List Event :=
  let (p, tr0) :=
    if pinFalsy puk then (ui.pinEntry, [Event.promptPin]) else (puk.getD "", [])
  let (np, tr1) :=
    if pinFalsy newPuk then (ui.newPinEntry, [Event.promptNewPin]) else (newPuk.getD "", [])
  let tr := tr0 ++ tr1
  if !valid_pin_length p then
    (.error (.usageError "Current PUK must be between 6 and 8 characters long."), tr)
  else if !valid_pin_length np then
    (.error (.usageError "New PUK must be between 6 and 8 characters long."), tr)
  else
    match dev.changePuk p np with
    | .ok _ => (.ok (), tr ++ [.changePuk p np])
    | .error (.invalidPin attempts) =>
      (.error (.usageError (if attempts ≠ 0 then
          "PUK change failed - " ++ toString attempts ++ " tries left."
        else "PUK is blocked.")), tr ++ [.changePuk p np])
    | .error (.deviceErr c) => (.error (.exc (.deviceErr c)), tr ++ [.changePuk p np])

/-- Arguments of one `_ensure_authenticated` call within a session. -/
structure ResolveCall where
  pin : Option String
  managementKey : Option Bytes
  requirePinAndKey : Bool
  noPrompt : Bool

/-- A whole CLI session: the `piv` callback runs once (reading the pivman
data), then each command resolves access against the cached record. -/
def runSession (dev : Device) (ui : UI) (derive : String → Bytes → Bytes)
    (calls : List ResolveCall) : List Event :=
  match piv dev with
  | (.error _, tr) => tr
  | (.ok pivman, tr) =>
    tr ++ (calls.map (fun c =>
      (ensure_authenticated dev ui derive pivman c.pin c.managementKey
        c.requirePinAndKey c.noPrompt).2)).flatten

/-! ### Concrete fixtures used to instantiate the theorems -/

/-- A derived-key protection record. -/
def pivmanDerived : PivmanData :=
  { has_derived_key := true, has_stored_key := false, salt := [10, 11, 12, 13] }

/-- An unprotected record. -/
def pivmanPlain : PivmanData :=
  { has_derived_key := false, has_stored_key := false, salt := [] }

/-- Default UI entries. -/
def uiDefault : UI :=
  { pinEntry := "123456", newPinEntry := "654321", mgmKeyEntry := "" }

/-- A concrete stand-in for `derive_management_key` (an external,
deterministic collaborator; the engine treats it as opaque). -/
def defDerive : String → Bytes → Bytes :=
  fun p salt => salt ++ [p.length]

/-- A device that accepts everything. -/
def devOk : Device :=
  { pivmanData := .ok pivmanDerived
    verifyPin := fun _ => .ok ()
    authenticate := fun _ => .ok ()
    protectedData := .ok [9, 9, 9]
    changePin := fun _ _ => .ok ()
    changePuk := fun _ _ => .ok () }

/-- A device whose PIN and PUK are blocked (zero attempts remaining). -/
def devBlocked : Device :=
  { pivmanData := .ok pivmanDerived
    verifyPin := fun _ => .error (.invalidPin 0)
    authenticate := fun _ => .ok ()
    protectedData := .ok [9, 9, 9]
    changePin := fun _ _ => .error (.invalidPin 0)
    changePuk := fun _ _ => .error (.invalidPin 0) }

/-- A device that accepts the PIN but raises a non-PIN device error (e.g. a
touch-confirmation timeout) on every authenticate call. -/
def devAuthErr : Device :=
  { pivmanData := .ok pivmanDerived
    verifyPin := fun _ => .ok ()
    authenticate := fun _ => .error (.deviceErr 7)
    protectedData := .ok [9, 9, 9]
    changePin := fun _ _ => .ok ()
    changePuk := fun _ _ => .ok () }

/-- A stored-key protection record. -/
def pivmanStored : PivmanData :=
  { has_derived_key := false, has_stored_key := true, salt := [] }

/-- A device that accepts the PIN but fails the PIN-protected stored-key
fetch with a device error. -/
def devProtErr : Device :=
  { pivmanData := .ok pivmanStored
    verifyPin := fun _ => .ok ()
    authenticate := fun _ => .ok ()
    protectedData := .error (.deviceErr 5)
    changePin := fun _ _ => .ok ()
    changePuk := fun _ _ => .ok () }

/-! ### Helper lemmas about traces -/

/-- The trace of `authenticate` is one of four explicit shapes: it contains
at most one management-key prompt and at most one authenticate command, and
nothing else. -/
theorem authenticate_trace (dev : Device) (ui : UI) (mk : Option Bytes) (np : Bool) :
    (authenticate dev ui mk np).2 = [] ∨
    (authenticate dev ui mk np).2 = [Event.promptMgmKey] ∨
    (∃ k, (authenticate dev ui mk np).2 = [Event.promptMgmKey, Event.authenticate k]) ∨
    ∃ k, (authenticate dev ui mk np).2 = [Event.authenticate k] := by
  unfold authenticate prompt_management_key
  by_cases hf : keyFalsy mk = true
  · by_cases hn : np = true
    · simp [hf, hn]
    · by_cases hb : ui.mgmKeyEntry = ""
      · cases ha : dev.authenticate DEFAULT_MANAGEMENT_KEY <;> simp [hf, hn, hb, ha]
      · cases hx : bytesFromhex ui.mgmKeyEntry with
        | none => simp [hf, hn, hb, hx]
        | some k => cases ha : dev.authenticate k <;> simp [hf, hn, hb, hx, ha]
  · cases ha : dev.authenticate (mk.getD []) <;> simp [hf, ha]

/-- `authenticate` never verifies a PIN, never prompts for a PIN and never
re-reads the protection record. -/
theorem authenticate_no_pin_events (dev : Device) (ui : UI) (mk : Option Bytes) (np : Bool) :
    (∀ q, Event.verifyPin q ∉ (authenticate dev ui mk np).2) ∧
    Event.promptPin ∉ (authenticate dev ui mk np).2 ∧
    Event.readPivmanData ∉ (authenticate dev ui mk np).2 := by
  rcases authenticate_trace dev ui mk np with h | h | ⟨k, h⟩ | ⟨k, h⟩ <;> rw [h] <;> simp

/-- Every interaction of the `_verify_pin` try body is a PIN submission (of
the given PIN), an authenticate command, or the protected-data fetch. -/
theorem verify_pin_body_events (dev : Device) (derive : String → Bytes → Bytes)
    (pivman : PivmanData) (p : String) :
    ∀ e ∈ (verify_pin_body dev derive pivman p).2,
      e = Event.verifyPin p ∨ (∃ k, e = Event.authenticate k) ∨ e = Event.getProtectedData := by
  unfold verify_pin_body
  cases hv : dev.verifyPin p
  case error => simp
  case ok =>
    by_cases hd : pivman.has_derived_key = true
    · cases ha : dev.authenticate (derive p pivman.salt) <;> simp [hd, ha]
    · by_cases hs : pivman.has_stored_key = true
      · cases hpd : dev.protectedData with
        | error e => simp [hd, hs, hpd]
        | ok key => cases ha : dev.authenticate key <;> simp [hd, hs, hpd, ha]
      · simp [hd, hs]

/-- Every interaction of `verify_pin` is a PIN prompt, a PIN submission, an
authenticate command, or the protected-data fetch; in particular it never
re-reads the protection record and never prompts for a management key. -/
theorem verify_pin_events (dev : Device) (ui : UI) (derive : String → Bytes → Bytes)
    (pivman : PivmanData) (pin : Option String) (np : Bool) :
    ∀ e ∈ (verify_pin dev ui derive pivman pin np).2,
      e = Event.promptPin ∨ (∃ q, e = Event.verifyPin q) ∨
      (∃ k, e = Event.authenticate k) ∨ e = Event.getProtectedData := by
  intro e he
  unfold verify_pin prompt_pin at he
  by_cases hf : pinFalsy pin = true
  · by_cases hn : np = true
    · simp [hf, hn] at he
    · simp only [hf, hn, Bool.false_eq_true, if_true, if_false] at he
      split at he <;>
        · simp only [List.mem_append, List.mem_singleton] at he
          rcases he with he | he
          · left; exact he
          · right
            rcases verify_pin_body_events dev derive pivman ui.pinEntry e
                (by rw [congrArg Prod.snd (by assumption : verify_pin_body dev derive pivman
                  ui.pinEntry = _)]; exact he) with h | h | h
            · exact Or.inl ⟨_, h⟩
            · exact Or.inr (Or.inl h)
            · exact Or.inr (Or.inr h)
  · simp only [hf, Bool.false_eq_true, if_false] at he
    split at he <;>
      · simp only [List.nil_append] at he
        right
        rcases verify_pin_body_events dev derive pivman (pin.getD "") e
            (by rw [congrArg Prod.snd (by assumption : verify_pin_body dev derive pivman
              (pin.getD "") = _)]; exact he) with h | h | h
        · exact Or.inl ⟨_, h⟩
        · exact Or.inr (Or.inl h)
        · exact Or.inr (Or.inr h)

/-- The `piv` callback performs exactly one protection-record read, whatever
the device answers. -/
theorem piv_trace (dev : Device) : (piv dev).2 = [Event.readPivmanData] := by
  unfold piv
  cases h : dev.pivmanData with
  | ok d => rfl
  | error sw => by_cases hs : sw = SW_FILE_NOT_FOUND <;> simp [hs]

/-- `ensure_authenticated` never re-reads the protection record. -/
theorem ensure_authenticated_no_read (dev : Device) (ui : UI)
    (derive : String → Bytes → Bytes) (pivman : PivmanData) (pin : Option String)
    (mk : Option Bytes) (r np : Bool) :
    Event.readPivmanData ∉ (ensure_authenticated dev ui derive pivman pin mk r np).2 := by
  have hvp : Event.readPivmanData ∉ (verify_pin dev ui derive pivman pin np).2 := by
    intro h
    rcases verify_pin_events dev ui derive pivman pin np _ h with h1 | ⟨q, h1⟩ | ⟨k, h1⟩ | h1 <;>
      simp at h1
  have hau : Event.readPivmanData ∉ (authenticate dev ui mk np).2 :=
    (authenticate_no_pin_events dev ui mk np).2.2
  unfold ensure_authenticated
  by_cases hprot : pivman.has_protected_key = true
  · by_cases hkf : keyFalsy mk = true
    · simpa [hprot, hkf] using hvp
    · simp only [hprot, hkf, Bool.false_eq_true, if_true, if_false]
      cases hA : authenticate dev ui mk np with
      | mk res tr =>
        have h1 : Event.readPivmanData ∉ tr := by rw [hA] at hau; exact hau
        cases res <;> simpa using h1
  · simp only [hprot, Bool.false_eq_true, if_false]
    by_cases hr : r = true
    · simp only [hr, if_true]
      cases hV : verify_pin dev ui derive pivman pin np with
      | mk res0 tr0 =>
        have h0 : Event.readPivmanData ∉ tr0 := by rw [hV] at hvp; exact hvp
        cases res0 with
        | error f => simpa using h0
        | ok pv =>
          cases hA : authenticate dev ui mk np with
          | mk res1 tr1 =>
            have h1 : Event.readPivmanData ∉ tr1 := by rw [hA] at hau; exact hau
            cases res1 <;> simp [List.mem_append, h0, h1]
    · simp only [hr, Bool.false_eq_true, if_false]
      cases hA : authenticate dev ui mk np with
      | mk res tr =>
        have h1 : Event.readPivmanData ∉ tr := by rw [hA] at hau; exact hau
        cases res <;> simpa using h1

/-- An empty (falsy) management key behaves exactly like an absent one in
`authenticate`. -/
theorem authenticate_empty_eq_none (dev : Device) (ui : UI) (np : Bool) :
    authenticate dev ui (some []) np = authenticate dev ui none np := by
  unfold authenticate
  simp [keyFalsy]

/-- An empty (falsy) management key behaves exactly like an absent one in
`ensure_authenticated`. -/
theorem ensure_empty_key_eq_none (dev : Device) (ui : UI)
    (derive : String → Bytes → Bytes) (pivman : PivmanData) (pin : Option String)
    (r np : Bool) :
    ensure_authenticated dev ui derive pivman pin (some []) r np =
      ensure_authenticated dev ui derive pivman pin none r np := by
  unfold ensure_authenticated
  simp [keyFalsy, authenticate_empty_eq_none]

/-- C1: for every protection record with `has_derived_key = true`, when the
caller supplies only a PIN (no management key), `ensure_authenticated`
performs exactly PIN verification, authentication with the management key
derived from (pin, salt), then a second PIN verification — exactly two
PIN-verify commands and one authenticate command — and returns
`pin_verified = true`. -/
theorem derived_key_pin_only_resolution (dev : Device) (ui : UI)
    (derive : String → Bytes → Bytes) (pivman : PivmanData) (p : String) (r np : Bool)
    (hp : p ≠ "")
    (hd : pivman.has_derived_key = true)
    (hv : dev.verifyPin p = .ok ())
    (ha : dev.authenticate (derive p pivman.salt) = .ok ()) :
    ensure_authenticated dev ui derive pivman (some p) none r np =
      (.ok true,
        [Event.verifyPin p, Event.authenticate (derive p pivman.salt), Event.verifyPin p]) := by
  have hprot : pivman.has_protected_key = true := by
    simp [PivmanData.has_protected_key, hd]
  unfold ensure_authenticated verify_pin verify_pin_body
  simp [hprot, keyFalsy, pinFalsy, hp, hv, hd, ha]

/-- Witness for C1 at a concrete device, record and PIN. -/
theorem derived_key_pin_only_resolution_witness :
    ensure_authenticated devOk uiDefault defDerive pivmanDerived (some "123456") none
        false false =
      (.ok true,
        [Event.verifyPin "123456",
          Event.authenticate (defDerive "123456" pivmanDerived.salt),
          Event.verifyPin "123456"]) :=
  derived_key_pin_only_resolution devOk uiDefault defDerive pivmanDerived "123456"
    false false (by decide) rfl rfl rfl

/-- C2: for every protection record with `has_protected_key = true`, if the
caller supplies an explicit (non-empty) management key, resolution performs
only the management-key authentication — the trace is exactly one
authenticate command, so no PIN verification and no PIN prompt occur — and
on success the outcome has `pin_verified = false`. -/
theorem explicit_key_bypasses_pin (dev : Device) (ui : UI)
    (derive : String → Bytes → Bytes) (pivman : PivmanData) (pin : Option String)
    (k : Bytes) (r np : Bool)
    (hk : k ≠ [])
    (hprot : pivman.has_protected_key = true) :
    (ensure_authenticated dev ui derive pivman pin (some k) r np).2 =
        [Event.authenticate k] ∧
    (dev.authenticate k = .ok () →
      (ensure_authenticated dev ui derive pivman pin (some k) r np).1 = .ok false) := by
  unfold ensure_authenticated authenticate
  cases ha : dev.authenticate k <;> simp [hprot, keyFalsy, hk, ha]

/-- Witness for C2 at a concrete device, record and key. -/
theorem explicit_key_bypasses_pin_witness :
    (ensure_authenticated devOk uiDefault defDerive pivmanDerived none
        (some DEFAULT_MANAGEMENT_KEY) false false).2 =
      [Event.authenticate DEFAULT_MANAGEMENT_KEY] ∧
    (devOk.authenticate DEFAULT_MANAGEMENT_KEY = .ok () →
      (ensure_authenticated devOk uiDefault defDerive pivmanDerived none
        (some DEFAULT_MANAGEMENT_KEY) false false).1 = .ok false) :=
  explicit_key_bypasses_pin devOk uiDefault defDerive pivmanDerived none
    DEFAULT_MANAGEMENT_KEY false false (by decide) rfl

/-- C3: for every protection record with `has_protected_key = false` and a
call with `require_pin_and_key = false`, resolution takes only the
management-key path: the trace contains no PIN verification command and no
PIN prompt. -/
theorem unprotected_no_require_skips_pin (dev : Device) (ui : UI)
    (derive : String → Bytes → Bytes) (pivman : PivmanData) (pin : Option String)
    (mk : Option Bytes) (np : Bool)
    (hprot : pivman.has_protected_key = false) :
    (∀ q, Event.verifyPin q ∉
        (ensure_authenticated dev ui derive pivman pin mk false np).2) ∧
    Event.promptPin ∉ (ensure_authenticated dev ui derive pivman pin mk false np).2 := by
  have htr : (ensure_authenticated dev ui derive pivman pin mk false np).2 =
      (authenticate dev ui mk np).2 := by
    unfold ensure_authenticated
    simp only [hprot, Bool.false_eq_true, if_false]
    cases h : authenticate dev ui mk np with
    | mk res tr => cases res <;> simp
  rw [htr]
  exact ⟨(authenticate_no_pin_events dev ui mk np).1,
    (authenticate_no_pin_events dev ui mk np).2.1⟩

/-- Witness for C3 at a concrete unprotected record. -/
theorem unprotected_no_require_skips_pin_witness :
    (∀ q, Event.verifyPin q ∉
        (ensure_authenticated devOk uiDefault defDerive pivmanPlain none none
          false false).2) ∧
    Event.promptPin ∉
      (ensure_authenticated devOk uiDefault defDerive pivmanPlain none none
        false false).2 :=
  unprotected_no_require_skips_pin devOk uiDefault defDerive pivmanPlain none none
    false (by decide)

/-- C5: with `no_prompt = true`, no PIN supplied, no management key supplied
and `has_protected_key = true`, resolution fails with the "PIN required."
usage error and an empty trace — no verification or authentication command
is submitted to the device. -/
theorem no_prompt_missing_pin_credential_required (dev : Device) (ui : UI)
    (derive : String → Bytes → Bytes) (pivman : PivmanData) (pin : Option String)
    (r : Bool)
    (hpin : pinFalsy pin = true)
    (hprot : pivman.has_protected_key = true) :
    ensure_authenticated dev ui derive pivman pin none r true =
      (.error (.usageError "PIN required."), []) := by
  unfold ensure_authenticated verify_pin
  simp [hprot, keyFalsy, hpin]

/-- Witness for C5 at a concrete protected record. -/
theorem no_prompt_missing_pin_credential_required_witness :
    ensure_authenticated devOk uiDefault defDerive pivmanDerived none none false true =
      (.error (.usageError "PIN required."), []) :=
  no_prompt_missing_pin_credential_required devOk uiDefault defDerive pivmanDerived
    none false rfl rfl

/-- C4: a PIN or PUK submission failing with `attempts_remaining = 0` is
always classified as blocked ("PIN is blocked." / "PUK is blocked."), never
as the retryable tries-left failure; and when the initial PIN submission in
`verify_pin` fails this way, the derived/stored-key authentication branch is
never attempted (the trace is the single PIN submission). -/
theorem zero_attempts_always_blocked :
    (∀ (dev : Device) (ui : UI) (derive : String → Bytes → Bytes)
        (pivman : PivmanData) (p : String) (np : Bool), p ≠ "" →
      dev.verifyPin p = .error (.invalidPin 0) →
      verify_pin dev ui derive pivman (some p) np =
        (.error (.usageError "PIN is blocked."), [Event.verifyPin p])) ∧
    (∀ (dev : Device) (ui : UI) (derive : String → Bytes → Bytes)
        (pivman : PivmanData) (p : String) (np : Bool), p ≠ "" →
      (verify_pin_body dev derive pivman p).1 = .error (.invalidPin 0) →
      (verify_pin dev ui derive pivman (some p) np).1 =
        .error (.usageError "PIN is blocked.")) ∧
    (∀ (dev : Device) (ui : UI) (p np : String),
      valid_pin_length p = true → valid_pin_length np = true →
      dev.changePin p np = .error (.invalidPin 0) →
      (change_pin dev ui (some p) (some np)).1 =
        .error (.usageError "PIN is blocked.")) ∧
    (∀ (dev : Device) (ui : UI) (p np : String),
      valid_pin_length p = true → valid_pin_length np = true →
      dev.changePuk p np = .error (.invalidPin 0) →
      (change_puk dev ui (some p) (some np)).1 =
        .error (.usageError "PUK is blocked.")) := by
  refine ⟨?_, ?_, ?_, ?_⟩
  · intro dev ui derive pivman p np hp hv
    unfold verify_pin verify_pin_body
    simp [pinFalsy, hp, hv]
  · intro dev ui derive pivman p np hp hb
    cases hB : verify_pin_body dev derive pivman p with
    | mk res tr =>
      rw [hB] at hb
      simp only at hb
      subst hb
      unfold verify_pin
      simp [pinFalsy, hp, hB]
  · intro dev ui p np hvp hvn hc
    have hp : p ≠ "" := by
      intro h; subst h; simp [valid_pin_length] at hvp
    have hn : np ≠ "" := by
      intro h; subst h; simp [valid_pin_length] at hvn
    unfold change_pin
    simp [pinFalsy, hp, hn, hvp, hvn, hc]
  · intro dev ui p np hvp hvn hc
    have hp : p ≠ "" := by
      intro h; subst h; simp [valid_pin_length] at hvp
    have hn : np ≠ "" := by
      intro h; subst h; simp [valid_pin_length] at hvn
    unfold change_puk
    simp [pinFalsy, hp, hn, hvp, hvn, hc]

/-- Witness for C4 at a concrete blocked device: PIN verify, PIN change and
PUK change each report the blocked classification. -/
theorem zero_attempts_always_blocked_witness :
    verify_pin devBlocked uiDefault defDerive pivmanDerived (some "123456") false =
      (.error (.usageError "PIN is blocked."), [Event.verifyPin "123456"]) ∧
    (verify_pin devBlocked uiDefault defDerive pivmanDerived (some "123456") true).1 =
      .error (.usageError "PIN is blocked.") ∧
    (change_pin devBlocked uiDefault (some "123456") (some "654321")).1 =
      .error (.usageError "PIN is blocked.") ∧
    (change_puk devBlocked uiDefault (some "12345678") (some "87654321")).1 =
      .error (.usageError "PUK is blocked.") :=
  ⟨zero_attempts_always_blocked.1 devBlocked uiDefault defDerive pivmanDerived
      "123456" false (by decide) rfl,
    zero_attempts_always_blocked.2.1 devBlocked uiDefault defDerive pivmanDerived
      "123456" true (by decide) rfl,
    zero_attempts_always_blocked.2.2.1 devBlocked uiDefault "123456" "654321"
      (by decide) (by decide) rfl,
    zero_attempts_always_blocked.2.2.2 devBlocked uiDefault "12345678" "87654321"
      (by decide) (by decide) rfl⟩

/-- C6 counterexample: on a concrete device that accepts the PIN but raises
a device error (e.g. a touch timeout) during the derived-key authenticate
sub-step, `verify_pin` reports the classified usage error "PIN verification
failed." — the error does not propagate unwrapped, contrary to the claim. -/
theorem auth_suberror_wrapped_cex :
    (verify_pin devAuthErr uiDefault defDerive pivmanDerived (some "123456") false).1 =
      .error (.usageError "PIN verification failed.") ∧
    (verify_pin devAuthErr uiDefault defDerive pivmanDerived (some "123456") false).1 ≠
      .error (.exc (.deviceErr 7)) := by
  constructor
  · rfl
  · intro h
    rw [show (verify_pin devAuthErr uiDefault defDerive pivmanDerived (some "123456")
        false).1 = Except.error (Failure.usageError "PIN verification failed.")
      from rfl] at h
    simp at h

/-- C6 (amended): after the initial PIN submission succeeds, a device-side
error (other than an invalid-PIN error) raised during the derived-key or
stored-key management-key authentication sub-step — the derived-key
authenticate call, the stored-key fetch, or the stored-key authenticate
call — is caught and reported as the generic "PIN verification failed."
usage error, with no attempts count and no blocked classification, rather
than propagating unwrapped. -/
theorem auth_suberror_classified_generic :
    (∀ (dev : Device) (ui : UI) (derive : String → Bytes → Bytes)
        (pivman : PivmanData) (p : String) (np : Bool) (c : Nat), p ≠ "" →
      pivman.has_derived_key = true →
      dev.verifyPin p = .ok () →
      dev.authenticate (derive p pivman.salt) = .error (.deviceErr c) →
      verify_pin dev ui derive pivman (some p) np =
        (.error (.usageError "PIN verification failed."),
          [Event.verifyPin p, Event.authenticate (derive p pivman.salt)])) ∧
    (∀ (dev : Device) (ui : UI) (derive : String → Bytes → Bytes)
        (pivman : PivmanData) (p : String) (np : Bool) (c : Nat), p ≠ "" →
      pivman.has_derived_key = false →
      pivman.has_stored_key = true →
      dev.verifyPin p = .ok () →
      dev.protectedData = .error (.deviceErr c) →
      verify_pin dev ui derive pivman (some p) np =
        (.error (.usageError "PIN verification failed."),
          [Event.verifyPin p, Event.getProtectedData])) ∧
    (∀ (dev : Device) (ui : UI) (derive : String → Bytes → Bytes)
        (pivman : PivmanData) (p : String) (np : Bool) (key : Bytes) (c : Nat),
      p ≠ "" →
      pivman.has_derived_key = false →
      pivman.has_stored_key = true →
      dev.verifyPin p = .ok () →
      dev.protectedData = .ok key →
      dev.authenticate key = .error (.deviceErr c) →
      verify_pin dev ui derive pivman (some p) np =
        (.error (.usageError "PIN verification failed."),
          [Event.verifyPin p, Event.getProtectedData, Event.authenticate key])) := by
  refine ⟨?_, ?_, ?_⟩
  · intro dev ui derive pivman p np c hp hd hv ha
    unfold verify_pin verify_pin_body
    simp [pinFalsy, hp, hv, hd, ha]
  · intro dev ui derive pivman p np c hp hd hs hv hpd
    unfold verify_pin verify_pin_body
    simp [pinFalsy, hp, hv, hd, hs, hpd]
  · intro dev ui derive pivman p np key c hp hd hs hv hpd ha
    unfold verify_pin verify_pin_body
    simp [pinFalsy, hp, hv, hd, hs, hpd, ha]

/-- Witness for the amended C6 at concrete devices: the derived-key
authenticate error, the stored-key fetch error and the stored-key
authenticate error are each reported as the generic classified failure. -/
theorem auth_suberror_classified_generic_witness :
    verify_pin devAuthErr uiDefault defDerive pivmanDerived (some "123456") false =
      (.error (.usageError "PIN verification failed."),
        [Event.verifyPin "123456",
          Event.authenticate (defDerive "123456" pivmanDerived.salt)]) ∧
    verify_pin devProtErr uiDefault defDerive pivmanStored (some "123456") false =
      (.error (.usageError "PIN verification failed."),
        [Event.verifyPin "123456", Event.getProtectedData]) ∧
    verify_pin devAuthErr uiDefault defDerive pivmanStored (some "123456") false =
      (.error (.usageError "PIN verification failed."),
        [Event.verifyPin "123456", Event.getProtectedData,
          Event.authenticate [9, 9, 9]]) :=
  ⟨auth_suberror_classified_generic.1 devAuthErr uiDefault defDerive pivmanDerived
      "123456" false 7 (by decide) rfl rfl rfl,
    auth_suberror_classified_generic.2.1 devProtErr uiDefault defDerive pivmanStored
      "123456" false 5 (by decide) rfl rfl rfl rfl,
    auth_suberror_classified_generic.2.2 devAuthErr uiDefault defDerive pivmanStored
      "123456" false [9, 9, 9] 7 (by decide) rfl rfl rfl rfl rfl⟩

/-- C7: opening the PIV session fails with the session-fatal "The PIV
application can't be found on this YubiKey." usage error exactly when the
device reports an APDU error with status word `FILE_NOT_FOUND`; the trace is
always the single protection-record read (no retry). -/
theorem piv_app_missing_device_unavailable (dev : Device) :
    ((piv dev).1 =
        .error (.usageError "The PIV application can't be found on this YubiKey.") ↔
      dev.pivmanData = .error SW_FILE_NOT_FOUND) ∧
    (piv dev).2 = [Event.readPivmanData] := by
  refine ⟨?_, piv_trace dev⟩
  unfold piv
  cases h : dev.pivmanData with
  | ok d => simp
  | error sw => by_cases hs : sw = SW_FILE_NOT_FOUND <;> simp [hs]

/-- C8: over a whole session, the protection record is read from the device
exactly once (by the `piv` callback), however many resolutions follow; and
no `ensure_authenticated` call ever re-reads it — every resolution works
from the record cached at session start. -/
theorem protection_record_read_once_per_session (dev : Device) (ui : UI)
    (derive : String → Bytes → Bytes) (calls : List ResolveCall) :
    (runSession dev ui derive calls).count Event.readPivmanData = 1 ∧
    ∀ (pivman : PivmanData) (pin : Option String) (mk : Option Bytes) (r np : Bool),
      Event.readPivmanData ∉ (ensure_authenticated dev ui derive pivman pin mk r np).2 := by
  refine ⟨?_, fun pivman pin mk r np =>
    ensure_authenticated_no_read dev ui derive pivman pin mk r np⟩
  unfold runSession
  cases hp : piv dev with
  | mk res tr =>
    have htr : tr = [Event.readPivmanData] := by
      have h2 := piv_trace dev
      rw [hp] at h2
      exact h2
    cases res with
    | error f => simp [htr]
    | ok pivman =>
      have hflat : Event.readPivmanData ∉
          (calls.map (fun c => (ensure_authenticated dev ui derive pivman c.pin
            c.managementKey c.requirePinAndKey c.noPrompt).2)).flatten := by
        intro h
        rw [List.mem_flatten] at h
        rcases h with ⟨l, hl, hmem⟩
        rw [List.mem_map] at hl
        rcases hl with ⟨c, _, rfl⟩
        exact ensure_authenticated_no_read dev ui derive pivman c.pin c.managementKey
          c.requirePinAndKey c.noPrompt hmem
      rw [List.count_append, htr]
      rw [List.count_eq_zero.mpr hflat]
      simp

/-- C9: the management-key parser accepts a value exactly when it hex-decodes
to 24 bytes or to the empty byte string (notably the empty string input),
failing with `ValueError(val)` otherwise; and the empty key it returns is
treated downstream (`ensure_authenticated`, `authenticate`) exactly as if no
management key had been supplied. -/
theorem management_key_parse_and_empty_key :
    (∀ (val : String) (k : Bytes),
      click_parse_management_key val = .ok k ↔
        (bytesFromhex val = some k ∧ (k = [] ∨ k.length = 24))) ∧
    (∀ val : String, (∃ k, click_parse_management_key val = .ok k) ∨
      click_parse_management_key val = .error val) ∧
    click_parse_management_key "" = .ok [] ∧
    (∀ (dev : Device) (ui : UI) (derive : String → Bytes → Bytes)
        (pivman : PivmanData) (pin : Option String) (r np : Bool),
      ensure_authenticated dev ui derive pivman pin (some []) r np =
        ensure_authenticated dev ui derive pivman pin none r np) ∧
    (∀ (dev : Device) (ui : UI) (np : Bool),
      authenticate dev ui (some []) np = authenticate dev ui none np) := by
  refine ⟨?_, ?_, ?_,
    fun dev ui derive pivman pin r np =>
      ensure_empty_key_eq_none dev ui derive pivman pin r np,
    fun dev ui np => authenticate_empty_eq_none dev ui np⟩
  · intro val k
    cases hx : bytesFromhex val with
    | none =>
      have heq : click_parse_management_key val = .error val := by
        unfold click_parse_management_key; rw [hx]
      rw [heq]
      simp
    | some key =>
      have heq : click_parse_management_key val =
          if key ≠ [] ∧ key.length ≠ 24 then .error val else .ok key := by
        unfold click_parse_management_key; rw [hx]
      rw [heq]
      by_cases hc : key ≠ [] ∧ key.length ≠ 24
      · rw [if_pos hc]
        constructor
        · intro h; exact absurd h (by simp)
        · rintro ⟨hk, hor⟩
          injection hk with hk
          subst hk
          rcases hor with rfl | hl
          · exact absurd rfl hc.1
          · exact absurd hl hc.2
      · rw [if_neg hc]
        push_neg at hc
        constructor
        · intro h
          injection h with h
          subst h
          refine ⟨rfl, ?_⟩
          by_cases hk : key = []
          · exact Or.inl hk
          · exact Or.inr (hc hk)
        · rintro ⟨hk, _⟩
          injection hk with hk
          subst hk
          rfl
  · intro val
    cases hx : bytesFromhex val with
    | none =>
      have heq : click_parse_management_key val = .error val := by
        unfold click_parse_management_key; rw [hx]
      rw [heq]
      right; rfl
    | some key =>
      have heq : click_parse_management_key val =
          if key ≠ [] ∧ key.length ≠ 24 then .error val else .ok key := by
        unfold click_parse_management_key; rw [hx]
      rw [heq]
      by_cases hc : key ≠ [] ∧ key.length ≠ 24
      · rw [if_pos hc]; right; rfl
      · rw [if_neg hc]; left; exact ⟨key, rfl⟩
  · rfl

/-- C10: when the management key is prompted for and the user submits a
blank response, `prompt_management_key` silently returns the factory default
management key (no failure, a single prompt), and `authenticate` then
submits that default key to the device. -/
theorem blank_mgm_key_prompt_uses_default (dev : Device) (ui : UI)
    (h : ui.mgmKeyEntry = "") :
    prompt_management_key ui = (.ok DEFAULT_MANAGEMENT_KEY, [Event.promptMgmKey]) ∧
    (authenticate dev ui none false).2 =
      [Event.promptMgmKey, Event.authenticate DEFAULT_MANAGEMENT_KEY] ∧
    (dev.authenticate DEFAULT_MANAGEMENT_KEY = .ok () →
      (authenticate dev ui none false).1 = .ok ()) := by
  unfold authenticate prompt_management_key
  cases ha : dev.authenticate DEFAULT_MANAGEMENT_KEY <;> simp [keyFalsy, h, ha]

/-- Witness for C10 with a blank prompt entry. -/
theorem blank_mgm_key_prompt_uses_default_witness :
    prompt_management_key uiDefault =
      (.ok DEFAULT_MANAGEMENT_KEY, [Event.promptMgmKey]) ∧
    (authenticate devOk uiDefault none false).2 =
      [Event.promptMgmKey, Event.authenticate DEFAULT_MANAGEMENT_KEY] ∧
    (devOk.authenticate DEFAULT_MANAGEMENT_KEY = .ok () →
      (authenticate devOk uiDefault none false).1 = .ok ()) :=
  blank_mgm_key_prompt_uses_default devOk uiDefault rfl
